import Mathlib

/-!
Shallow embedding of the Royal Enfield Mechanic Assistant repository
(`app.py`, `ingest_and_index.py`, `vector_searchrest.py`).

Pure computations (identifier derivation, page joining, context assembly,
request-body construction, response mapping) are translated directly.
Network endpoints (embedding model, search service, completion model, blob
store, PDF parser) are passed in as explicit oracle functions, and the
functions return the requests they issued alongside their results so that
call/no-call behaviour is observable.  Python exceptions are modelled with
`Except`.  JSON numbers are modelled as `Rat`: every numeric value in the
bodies under study is either a small integer or an embedding component that
is passed through opaquely, so no floating-point arithmetic is involved.
-/

namespace REMA

/-! ## Identifier derivation (`ingest_and_index.py`, `chunk_and_index`, lines 111-115) -/

/-- Membership in the character class `[A-Za-z0-9_-]` used by the
sanitizing regex `re.sub(r"[^A-Za-z0-9_-]", "_", raw_id)`. -/
def isSafeChar (c : Char) : Bool :=
  (65 ≤ c.toNat && c.toNat ≤ 90) || (97 ≤ c.toNat && c.toNat ≤ 122) ||
  (48 ≤ c.toNat && c.toNat ≤ 57) || c == '_' || c == '-'

/-- Action of the sanitizing regex on one character: characters outside
`[A-Za-z0-9_-]` are replaced by an underscore. -/
def sanitizeChar (c : Char) : Char :=
  if isSafeChar c then c else '_'

/-- Embedding of `re.sub(r"[^A-Za-z0-9_-]", "_", s)`. -/
def sanitize (s : String) : String :=
  String.mk (s.data.map sanitizeChar)

/-- Python `str.rfind` on a character list: index of the last occurrence,
`-1` when absent. -/
def rfindIdx (l : List Char) (c : Char) : Int :=
  match l.reverse.findIdx? (fun x => x == c) with
  | none => -1
  | some j => (l.length : Int) - 1 - j

/-- Scan of `posixpath.splitext`: is there a non-dot character at an index
`j` with `start ≤ j < stop`?  (`splitext` refuses to split a basename that
consists only of leading dots before the final dot.) -/
def hasNonDotBetween (l : List Char) (start stop : Int) : Bool :=
  (List.range l.length).any (fun j =>
    decide (start ≤ (j : Int)) && decide ((j : Int) < stop) &&
    !(l.getD j '.' == '.'))

/-- Embedding of `os.path.splitext(p)[0]` (posix rules): drop the extension
after the last dot, provided that dot comes after the last path separator
and the basename does not consist solely of dots up to it. -/
def splitextBase (p : String) : String :=
  let l := p.data
  let sepIndex := rfindIdx l '/'
  let dotIndex := rfindIdx l '.'
  if decide (sepIndex < dotIndex) && hasNonDotBetween l (sepIndex + 1) dotIndex then
    String.mk (l.take dotIndex.toNat)
  else p

/-- Decimal digit character for `d < 10`. -/
def digitChar (d : Nat) : Char := Char.ofNat (48 + d)

/-- Membership in the character class `[0-9]`. -/
def isDigitChar (c : Char) : Bool := 48 ≤ c.toNat && c.toNat ≤ 57

/-- Decimal representation of a natural number as a character list,
most-significant digit first; embedding of Python `str(i)` for `i ≥ 0`. -/
def natChars (n : Nat) : List Char :=
  if n = 0 then ['0'] else ((Nat.digits 10 n).map digitChar).reverse

/-- Decimal representation of a natural number; embedding of `str(i)`. -/
def natToString (n : Nat) : String := String.mk (natChars n)

/-- Left inverse of `natToString` used to prove injectivity: read a digit
string back as a number. -/
def charsToNat (l : List Char) : Nat :=
  Nat.ofDigits 10 ((l.map (fun c => c.toNat - 48)).reverse)

/-- The literal infix inserted between the base name and the chunk index. -/
def chunkTag : List Char := ("_chunk_").data

/-- Embedding of the chunk-id derivation in `chunk_and_index`:
`base = os.path.splitext(doc["id"])[0]`, `raw_id = f"{base}_chunk_{i}"`,
`safe_id = re.sub(r"[^A-Za-z0-9_-]", "_", raw_id)`. -/
def chunkId (docId : String) (i : Nat) : String :=
  sanitize (splitextBase docId ++ ("_chunk_") ++ natToString i)

/-! ## PDF fetch and extraction (`ingest_and_index.py`, `fetch_and_extract_pdfs`, lines 67-94) -/

/-- Raw bytes of a stored object. -/
abbrev Bytes := List Nat

/-- One blob of the storage container: a name and its byte payload. -/
structure Blob where
  name : String
  data : Bytes

/-- An extracted document, as built by `fetch_and_extract_pdfs`:
`{"id": blob.name, "text": full_text}`. -/
structure Doc where
  id : String
  text : String
deriving DecidableEq

/-- Embedding of the filter `blob.name.lower().endswith(".pdf")` (line 80):
lower-case the name (ASCII case mapping) and test the `.pdf` suffix. -/
def isPdfName (s : String) : Bool :=
  List.isSuffixOf ((".pdf").data) (s.data.map Char.toLower)

/-- Embedding of Python `sep.join(parts)`. -/
def joinSep (sep : String) : List String → String
  | [] => ""
  | [s] => s
  | s :: rest => s ++ sep ++ joinSep sep rest

/-- Embedding of lines 87-88: `pages = [page.extract_text() or "" for page
in reader.pages]; full_text = "\n".join(pages)`.  A page is represented by
the result of `extract_text()`: `none` when no text is extractable. -/
def extractPages (pages : List (Option String)) : String :=
  joinSep ("\n") (pages.map (fun p => p.getD ""))

/-- Loop body of `fetch_and_extract_pdfs` over the container's blob list.
The PDF parser oracle returns `none` when the bytes are not a valid PDF, in
which case `PdfReader` raises `PdfReadError` and the exception propagates,
aborting the whole run: this is modelled by returning `Except.error`
without any of the documents. -/
def fetchLoop (parsePdf : Bytes → Option (List (Option String))) :
    List Blob → Except String (List Doc)
  | [] => Except.ok []
  | b :: rest =>
    if isPdfName b.name then
      match parsePdf b.data with
      | none => Except.error ("PdfReadError: " ++ b.name)
      | some pages =>
        match fetchLoop parsePdf rest with
        | Except.error e => Except.error e
        | Except.ok docs => Except.ok (⟨b.name, extractPages pages⟩ :: docs)
    else fetchLoop parsePdf rest

/-- Embedding of `fetch_and_extract_pdfs`: list the container's blobs, keep
those whose lowercased name ends in `.pdf`, parse and extract each. -/
def fetch_and_extract_pdfs (blobs : List Blob)
    (parsePdf : Bytes → Option (List (Option String))) :
    Except String (List Doc) :=
  fetchLoop parsePdf blobs

/-! ## JSON model and vector search (`app.py` lines 30-62, `vector_searchrest.py` lines 25-65) -/

/-- Shallow JSON values.  Numbers are rationals: the request bodies only
carry small integers and opaque embedding components. -/
inductive Json where
  | null : Json
  | str : String → Json
  | num : Rat → Json
  | bool : Bool → Json
  | arr : List Json → Json
  | obj : List (String × Json) → Json

/-- Field lookup on a JSON object (Python `d["key"]` / `d.get("key")`);
`none` when the key is absent or the value is not an object. -/
def Json.lookup : Json → String → Option Json
  | Json.obj kvs, key => List.lookup key kvs
  | _, _ => none

/-- An HTTP response from the search service: status code and JSON body. -/
structure SearchResponse where
  status : Nat
  body : Json

/-- Request body built by `vector_search` in `app.py` (lines 37-48). -/
def appBody (emb : List Rat) (k : Nat) : Json :=
  Json.obj
    [(("top"), Json.num (k : Rat)),
     (("vectorQueries"), Json.arr [Json.obj
       [(("fields"), Json.str ("contentVector")),
        (("vector"), Json.arr (emb.map Json.num)),
        (("k"), Json.num (k : Rat)),
        (("kind"), Json.str ("vector")),
        (("exhaustive"), Json.bool false)]])]

/-- Payload built by `vector_search` in `vector_searchrest.py` (lines 32-43). -/
def restPayload (vector : List Rat) (k : Nat) : Json :=
  Json.obj
    [(("search"), Json.str ("*")),
     (("select"), Json.str ("id,content")),
     (("vectorQueries"), Json.arr [Json.obj
       [(("vector"), Json.arr (vector.map Json.num)),
        (("fields"), Json.str ("contentVector")),
        (("k"), Json.num (k : Rat)),
        (("kind"), Json.str ("vector"))]])]

/-- Extraction of one hit: `(h["id"], h["content"])`.  A missing key raises
`KeyError` in Python; the index schema fixes both fields to strings. -/
def hitPair (h : Json) : Except String (String × String) :=
  match Json.lookup h ("id"), Json.lookup h ("content") with
  | some (Json.str i), some (Json.str c) => Except.ok (i, c)
  | _, _ => Except.error ("KeyError")

/-- Embedding of the comprehension `[(h["id"], h["content"]) for h in hits]`
(line 62 of `app.py`): left to right, aborting on the first failure. -/
def mapHits : List Json → Except String (List (String × String))
  | [] => Except.ok []
  | h :: t =>
    match hitPair h, mapHits t with
    | Except.ok p, Except.ok r => Except.ok (p :: r)
    | Except.error e, _ => Except.error e
    | _, Except.error e => Except.error e

/-- Response handling of `vector_search` in `app.py` (lines 58-62):
`resp.raise_for_status()` raises exactly when the status is `≥ 400`; on
success the hits are `resp.json().get("value", [])` mapped to
`(id, content)` pairs. -/
def vectorResult (resp : SearchResponse) :
    Except String (List (String × String)) :=
  if 400 ≤ resp.status then Except.error ("HTTPError")
  else
    match (Json.lookup resp.body ("value")).getD (Json.arr []) with
    | Json.arr hits => mapHits hits
    | _ => Except.error ("TypeError")

/-- Embedding of `vector_search` in `app.py` (default `k = 7`, line 30).
Returns the request body that was POSTed together with the result. -/
def vector_search (query : String) (embed : String → List Rat)
    (search : Json → SearchResponse) (k : Nat := 7) :
    Json × Except String (List (String × String)) :=
  let body := appBody (embed query) k
  (body, vectorResult (search body))

/-- Print-loop body of `vector_search` in `vector_searchrest.py` (lines
62-65): accesses `h["id"]` and `h["content"]` (the latter must be a string
for `.replace`); a missing key raises `KeyError`. -/
def restHitLine (h : Json) : Except String Unit :=
  match Json.lookup h ("id"), Json.lookup h ("content") with
  | some _, some (Json.str _) => Except.ok ()
  | _, _ => Except.error ("KeyError")

/-- Print loop of `vector_searchrest.py` over the hits. -/
def restLoop : List Json → Except String Unit
  | [] => Except.ok ()
  | h :: t =>
    match restHitLine h with
    | Except.error e => Except.error e
    | Except.ok _ => restLoop t

/-- Response handling of `vector_search` in `vector_searchrest.py` (lines
56-65): raise on a non-ok status, then print each hit of
`r.json().get("value", [])`. -/
def restResult (resp : SearchResponse) : Except String Unit :=
  if 400 ≤ resp.status then Except.error ("HTTPError")
  else
    match (Json.lookup resp.body ("value")).getD (Json.arr []) with
    | Json.arr hits => restLoop hits
    | _ => Except.error ("TypeError")

/-- Embedding of `vector_search` in `vector_searchrest.py` (default
`k = 5`, line 25).  The function prints the hits and returns `None`; its
observable behaviour is the payload it POSTs and whether the run raised. -/
def rest_vector_search (query : String) (embed : String → List Rat)
    (search : Json → SearchResponse) (k : Nat := 5) :
    Json × Except String Unit :=
  let payload := restPayload (embed query) k
  (payload, restResult (search payload))

/-! ## Answer synthesizer (`app.py`, `answer_with_gpt4o`, lines 66-100) -/

/-- One chat message of the completion request. -/
structure Message where
  role : String
  content : String
deriving DecidableEq

/-- A request to the chat completion endpoint (lines 94-99): messages plus
the fixed sampling parameters `temperature=0.4`, `max_tokens=512`. -/
structure CompletionRequest where
  messages : List Message
  temperature : Rat
  maxTokens : Nat
deriving DecidableEq

/-- The fixed no-context reply returned on an empty hit list (line 68). -/
def NO_DOCS_MSG : String :=
  "❗️Sorry, I couldn’t find any relevant documentation to answer that."

/-- The fixed system-message content (line 79). -/
def SYSTEM_PROMPT : String :=
  "You are a certified Royal Enfield mechanic. Answer clearly and step-by-step."

/-- Rendering of `f"[{i}] {text}"` for one enumerated chunk. -/
def chunkLabel (p : Nat × (String × String)) : String :=
  ("[") ++ natToString p.1 ++ ("] ") ++ p.2.2

/-- Embedding of line 83: `"\n\n".join(f"[{i}] {text}" for i, (_, text) in
enumerate(chunks))`. -/
def buildContext (chunks : List (String × String)) : String :=
  joinSep ("\n\n") (chunks.enum.map chunkLabel)

/-- Embedding of `answer_with_gpt4o`.  The completion endpoint is an oracle
from requests to reply texts; the second component of the result is the
list of completion requests that were issued, so that the no-call behaviour
on an empty hit list is observable. -/
def answer_with_gpt4o (question : String) (chunks : List (String × String))
    (complete : CompletionRequest → String) :
    String × List CompletionRequest :=
  if chunks = [] then (NO_DOCS_MSG, [])
  else
    let sys : Message := ⟨("system"), SYSTEM_PROMPT⟩
    let context := buildContext chunks
    let user : Message := ⟨("user"),
      ("Context:\n") ++ context ++ ("\n\nQuestion: ") ++ question ++
      ("\n\nAnswer in a concise, step-by-step format.")⟩
    let req : CompletionRequest := ⟨[sys, user], (0.4 : Rat), 512⟩
    ((complete req).trim, [req])

/-! ## Streamlit app body (`app.py`, lines 104-130) -/

/-- A numeric slider control: label, minimum, maximum, initial value. -/
structure Slider where
  label : String
  minVal : Nat
  maxVal : Nat
  defaultVal : Nat

/-- Embedding of line 111:
`st.sidebar.slider("Number of context chunks (k)", 1, 8, 4)`. -/
def kSlider : Slider :=
  ⟨("Number of context chunks (k)"), 1, 8, 4⟩

/-- Value delivered by a slider for a user choice: clamped to the range. -/
def sliderValue (s : Slider) (choice : Nat) : Nat :=
  max s.minVal (min s.maxVal choice)

/-- Embedding of the Ask-button handler (lines 118-125).  Returns the new
history (or the propagated exception) together with the embedding inputs,
search request bodies and completion requests issued during the run.
`if prompt:` runs the body exactly when the prompt string is non-empty. -/
def askButton (prompt : String) (k : Nat) (history : List (String × String))
    (embed : String → List Rat) (search : Json → SearchResponse)
    (complete : CompletionRequest → String) :
    Except String (List (String × String)) ×
      List String × List Json × List CompletionRequest :=
  if prompt = "" then (Except.ok history, [], [], [])
  else
    match vector_search prompt embed search k with
    | (body, Except.error e) => (Except.error e, [prompt], [body], [])
    | (body, Except.ok hits) =>
      let result := answer_with_gpt4o prompt hits complete
      (Except.ok (history ++ [(prompt, result.1)]), [prompt], [body], result.2)

/-! ## Spec-side definitions

These follow the specification's wording, to be compared with the
definitions translated from the source. -/

/-- Spec-side page joining, following the spec's words: the per-page
extracted texts, in page order, joined with newline separators, where a
page yielding no extractable text contributes the empty string. -/
def specJoinPages : List (Option String) → String
  | [] => ""
  | [p] => p.getD ""
  | p :: rest => p.getD "" ++ ("\n") ++ specJoinPages rest

/-- Spec-side context block, following the spec's words: each hit's
content prefixed by its ordinal label (0-based when started at 0),
concatenated in ranking order and separated by blank lines. -/
def specContextBlock : Nat → List (String × String) → String
  | _, [] => ""
  | i, [c] => ("[") ++ natToString i ++ ("] ") ++ c.2
  | i, c :: rest =>
    ("[") ++ natToString i ++ ("] ") ++ c.2 ++ ("\n\n") ++
    specContextBlock (i + 1) rest

/-- Predicate for a hit object carrying string `id` and `content` fields,
as every record uploaded by the ingestion pipeline does. -/
def WellFormedHit (h : Json) : Prop :=
  (∃ s, Json.lookup h ("id") = some (Json.str s)) ∧
  (∃ s, Json.lookup h ("content") = some (Json.str s))

/-- String value of a field of a hit object (empty for a missing or
non-string field); used to state the response-mapping property. -/
def strField (h : Json) (key : String) : String :=
  match Json.lookup h key with
  | some (Json.str s) => s
  | _ => ""

/-! ## Concrete inputs used by witnesses and counterexamples -/

/-- PDF-parser oracle that fails exactly on the byte payload `[1]`. -/
def demoParse : Bytes → Option (List (Option String)) :=
  fun d => if d = ([1] : List Nat) then none else some [some ("page")]

/-- PDF-parser oracle returning a three-page document for payload `[7]`. -/
def demoParsePages : Bytes → Option (List (Option String)) :=
  fun d =>
    if d = ([7] : List Nat) then some [some ("a"), none, some ("b")] else none

/-- Embedding oracle returning a fixed two-component vector. -/
def demoEmbed : String → List Rat := fun _ => [1, 2]

/-- Search oracle returning one well-formed hit. -/
def demoSearch : Json → SearchResponse :=
  fun _ =>
    ⟨200, Json.obj [(("value"), Json.arr
      [Json.obj [(("id"), Json.str ("x")), (("content"), Json.str ("y"))]])]⟩

/-- Search oracle whose successful response has no `value` field. -/
def demoSearchNoValue : Json → SearchResponse :=
  fun _ => ⟨204, Json.obj [(("odata"), Json.str ("ctx"))]⟩

/-! ## General lemmas -/

/-- Strings with equal character data are equal. -/
theorem data_injective {s t : String} (h : s.data = t.data) : s = t :=
  congrArg String.mk h

/-- Character data of a sanitized string. -/
theorem sanitize_data (s : String) :
    (sanitize s).data = s.data.map sanitizeChar := rfl

/-- Sanitizing a character always lands in the safe class. -/
theorem isSafeChar_sanitizeChar (c : Char) :
    isSafeChar (sanitizeChar c) = true := by
  unfold sanitizeChar
  by_cases h : isSafeChar c
  · simp [h]
  · simp [h]
    decide

/-- Sanitization fixes strings made of safe characters. -/
theorem map_sanitizeChar_of_safe (l : List Char)
    (h : ∀ c ∈ l, isSafeChar c = true) : l.map sanitizeChar = l := by
  have h' : ∀ c ∈ l, sanitizeChar c = id c := by
    intro c hc
    simp [sanitizeChar, h c hc]
  rw [List.map_congr_left h', List.map_id]

/-- Code point of the decimal digit character. -/
theorem toNat_digitChar (d : Nat) (h : d < 10) :
    (digitChar d).toNat = 48 + d := by
  interval_cases d <;> rfl

/-- Digit characters are in the safe class. -/
theorem isSafeChar_of_digit (c : Char) (h : isDigitChar c = true) :
    isSafeChar c = true := by
  simp only [isDigitChar, Bool.and_eq_true, decide_eq_true_eq] at h
  simp only [isSafeChar, Bool.or_eq_true, Bool.and_eq_true, decide_eq_true_eq]
  omega

/-- Every character of a decimal representation is a digit. -/
theorem digit_natChars (n : Nat) : ∀ c ∈ natChars n, isDigitChar c = true := by
  intro c hc
  unfold natChars at hc
  by_cases h : n = 0
  · simp [h] at hc
    subst hc; rfl
  · simp only [h, if_false, List.mem_reverse, List.mem_map] at hc
    obtain ⟨d, hd, rfl⟩ := hc
    have hd10 : d < 10 := Nat.digits_lt_base (by norm_num) hd
    simp only [isDigitChar, toNat_digitChar d hd10, Bool.and_eq_true,
      decide_eq_true_eq]
    omega

/-- Decimal representations are never empty. -/
theorem natChars_ne_nil (n : Nat) : natChars n ≠ [] := by
  unfold natChars
  by_cases h : n = 0
  · simp [h]
  · simp [h, Nat.digits_ne_nil_iff_ne_zero.mpr h]

/-- Reading a decimal representation back yields the number. -/
theorem charsToNat_natChars (n : Nat) : charsToNat (natChars n) = n := by
  unfold charsToNat natChars
  by_cases h : n = 0
  · simp [h]
  · simp only [h, if_false, List.map_reverse, List.reverse_reverse,
      List.map_map]
    have : ∀ d ∈ Nat.digits 10 n,
        ((fun c => c.toNat - 48) ∘ digitChar) d = id d := by
      intro d hd
      have hd10 : d < 10 := Nat.digits_lt_base (by norm_num) hd
      simp [Function.comp, toNat_digitChar d hd10]
    rw [List.map_congr_left this, List.map_id, Nat.ofDigits_digits]

/-- Decimal representation is injective. -/
theorem natChars_injective {m n : Nat} (h : natChars m = natChars n) : m = n := by
  have := congrArg charsToNat h
  rwa [charsToNat_natChars, charsToNat_natChars] at this

/-- Character data of a derived chunk id: the sanitized base, the literal
tag `_chunk_`, and the decimal index, in that order.  Sanitization
distributes over the concatenation, fixing the tag and the digits. -/
theorem chunkId_data (d : String) (i : Nat) :
    (chunkId d i).data =
      (sanitize (splitextBase d)).data ++ chunkTag ++ natChars i := by
  have h1 : List.map sanitizeChar (("_chunk_" : String)).data = chunkTag := by
    decide
  have h2 : List.map sanitizeChar (natChars i) = natChars i :=
    map_sanitizeChar_of_safe (natChars i)
      (fun c hc => isSafeChar_of_digit c (digit_natChars i c hc))
  simp only [chunkId, sanitize_data, String.data_append, List.map_append]
  rw [h1, show (natToString i).data = natChars i from rfl, h2]

/-- Two strings of shape `base ++ "_chunk_" ++ digits` cannot agree when the
digit suffixes have different lengths: the character just before the shorter
suffix is the underscore closing the tag on one side and a digit on the
other. -/
theorem tag_digits_len {A B r₁ r₂ : List Char}
    (h₂ : ∀ c ∈ r₂, isDigitChar c = true)
    (heq : A ++ chunkTag ++ r₁ = B ++ chunkTag ++ r₂)
    (hlt : r₁.length < r₂.length) : False := by
  have hrev := congrArg List.reverse heq
  simp only [List.reverse_append, List.append_assoc] at hrev
  have hL : (r₁.reverse ++ (chunkTag.reverse ++ A.reverse)).getD
      r₁.length 'a' = '_' := by
    rw [List.getD_append_right (r₁.reverse) _ _ _ (by simp)]
    simp only [List.length_reverse, Nat.sub_self]
    rw [List.getD_append _ _ _ _ (by decide)]
    rfl
  have hlen₂ : r₁.length < r₂.reverse.length := by
    simpa using hlt
  have hR : (r₂.reverse ++ (chunkTag.reverse ++ B.reverse)).getD r₁.length 'a'
      ∈ r₂.reverse := by
    rw [List.getD_append _ _ _ _ hlen₂]
    rw [List.getD_eq_getElem _ _ hlen₂]
    exact List.getElem_mem _
  rw [← hrev, hL] at hR
  have := h₂ _ (List.mem_reverse.mp hR)
  revert this
  decide

/-- A string of shape `base ++ "_chunk_" ++ digits` determines the base and
the digit suffix uniquely. -/
theorem tag_digits_disambiguate {A B r₁ r₂ : List Char}
    (h₁ : ∀ c ∈ r₁, isDigitChar c = true)
    (h₂ : ∀ c ∈ r₂, isDigitChar c = true)
    (heq : A ++ chunkTag ++ r₁ = B ++ chunkTag ++ r₂) : A = B ∧ r₁ = r₂ := by
  have hlen : r₁.length = r₂.length := by
    rcases Nat.lt_trichotomy r₁.length r₂.length with h | h | h
    · exact (tag_digits_len h₂ heq h).elim
    · exact h
    · exact (tag_digits_len h₁ heq.symm h).elim
  have hAlen : A.length = B.length := by
    have := congrArg List.length heq
    simp only [List.length_append] at this
    omega
  have heq' : A ++ (chunkTag ++ r₁) = B ++ (chunkTag ++ r₂) := by
    simpa [List.append_assoc] using heq
  obtain ⟨hA, hrest⟩ := List.append_inj heq' hAlen
  exact ⟨hA, List.append_cancel_left hrest⟩

/-- Source-side page joining coincides with the spec's description of the
extracted text: per-page texts in page order, newline-separated, with the
empty string for a page without extractable text. -/
theorem extractPages_eq_specJoinPages (pages : List (Option String)) :
    extractPages pages = specJoinPages pages := by
  unfold extractPages
  induction pages with
  | nil => rfl
  | cons p rest ih =>
    cases rest with
    | nil => rfl
    | cons q t =>
      simp only [List.map_cons, joinSep, specJoinPages] at ih ⊢
      rw [← ih]

/-- The enumerated, labeled, blank-line-joined rendering of the hits equals
the spec-side context block started at any ordinal. -/
theorem joinSep_enumFrom_spec (i : Nat) (chunks : List (String × String)) :
    joinSep ("\n\n") ((List.enumFrom i chunks).map chunkLabel) =
      specContextBlock i chunks := by
  induction chunks generalizing i with
  | nil => rfl
  | cons c rest ih =>
    cases rest with
    | nil => rfl
    | cons c2 t =>
      simp only [List.enumFrom_cons, List.map_cons, joinSep, specContextBlock]
      rw [← ih (i + 1)]
      simp [List.enumFrom_cons, chunkLabel, joinSep]

/-- The context block built by `answer_with_gpt4o` is the spec-side one
with 0-based ordinals. -/
theorem buildContext_eq_specContextBlock (chunks : List (String × String)) :
    buildContext chunks = specContextBlock 0 chunks := by
  unfold buildContext
  rw [show chunks.enum = List.enumFrom 0 chunks from rfl]
  exact joinSep_enumFrom_spec 0 chunks

/-- On hits whose `id` and `content` fields are strings, the comprehension
succeeds and produces exactly one pair per hit, in response order. -/
theorem mapHits_wellFormed (hits : List Json)
    (hwf : ∀ h ∈ hits, WellFormedHit h) :
    mapHits hits =
      Except.ok (hits.map
        (fun h => (strField h ("id"), strField h ("content")))) := by
  induction hits with
  | nil => rfl
  | cons h t ih =>
    obtain ⟨⟨i, hi⟩, ⟨c, hc⟩⟩ := hwf h (List.mem_cons_self h t)
    have ht := ih (fun x hx => hwf x (List.mem_cons_of_mem h hx))
    simp [mapHits, hitPair, hi, hc, ht, strField]

/-! ## Claim theorems -/

/-- Claim C1: for every question string, `answer_with_gpt4o` on an empty
hit list returns the fixed no-documentation message — a literal constant
string — and issues no completion request. -/
theorem empty_hits_fixed_message (q : String)
    (complete : CompletionRequest → String) :
    answer_with_gpt4o q [] complete = (NO_DOCS_MSG, []) ∧
    NO_DOCS_MSG =
      "❗️Sorry, I couldn’t find any relevant documentation to answer that." :=
  ⟨rfl, rfl⟩

/-- Claim C2, counterexample: the derivation is not injective on distinct
`(docId, index)` pairs — the document ids `"a b.pdf"` and `"a_b.pdf"` are
distinct, yet their chunk 0 ids coincide, because sanitization maps both
base names to `a_b`. -/
theorem chunkId_collision :
    ((("a b.pdf" : String), (0 : Nat)) ≠ (("a_b.pdf" : String), (0 : Nat))) ∧
    chunkId ("a b.pdf") 0 = chunkId ("a_b.pdf") 0 :=
  ⟨by decide, by decide⟩

/-- Claim C2, amended: the derivation is injective in the pair (sanitized
base name, index): two `(docId, index)` pairs derive distinct storage ids
whenever their sanitized extension-stripped base names differ or their
indices differ.  In particular distinct chunk indices of one document
always receive distinct ids. -/
theorem chunkId_inj_of_base_or_index (d₁ d₂ : String) (i₁ i₂ : Nat)
    (h : sanitize (splitextBase d₁) ≠ sanitize (splitextBase d₂) ∨ i₁ ≠ i₂) :
    chunkId d₁ i₁ ≠ chunkId d₂ i₂ := by
  intro he
  have hd := congrArg String.data he
  rw [chunkId_data, chunkId_data] at hd
  obtain ⟨hA, hR⟩ :=
    tag_digits_disambiguate (digit_natChars i₁) (digit_natChars i₂) hd
  rcases h with h | h
  · exact h (data_injective hA)
  · exact h (natChars_injective hR)

/-- Witness for the amended claim C2 at the concrete documents `a.pdf` and
`b.pdf`, whose sanitized base names differ. -/
theorem chunkId_inj_of_base_or_index_witness :
    (sanitize (splitextBase ("a.pdf")) ≠ sanitize (splitextBase ("b.pdf")) ∨
      (0 : Nat) ≠ 0) ∧
    chunkId ("a.pdf") 0 ≠ chunkId ("b.pdf") 0 :=
  ⟨Or.inl (by decide),
   chunkId_inj_of_base_or_index ("a.pdf") ("b.pdf") 0 0 (Or.inl (by decide))⟩

/-- Claim C3: for every document id and chunk index, the derived storage id
is the sanitization of the extension-stripped base followed by `_chunk_`
and the decimal index; it is non-empty and consists solely of characters
from `[A-Za-z0-9_-]`, i.e. it matches `^[A-Za-z0-9_-]+$`. -/
theorem chunkId_sanitized (d : String) (i : Nat) :
    chunkId d i = sanitize (splitextBase d ++ ("_chunk_") ++ natToString i) ∧
    (chunkId d i).data ≠ [] ∧
    ∀ c ∈ (chunkId d i).data, isSafeChar c = true := by
  refine ⟨rfl, ?_, ?_⟩
  · rw [chunkId_data]
    intro hnil
    have := congrArg List.length hnil
    simp only [List.length_append, List.length_nil] at this
    have h7 : chunkTag.length = 7 := rfl
    omega
  · rw [chunkId_data]
    intro c hc
    simp only [List.append_assoc, List.mem_append] at hc
    rcases hc with hc | hc | hc
    · rw [sanitize_data] at hc
      obtain ⟨c', _, rfl⟩ := List.mem_map.mp hc
      exact isSafeChar_sanitizeChar c'
    · have : ∀ c ∈ chunkTag, isSafeChar c = true := by decide
      exact this c hc
    · exact isSafeChar_of_digit c (digit_natChars i c hc)

/-- Claim C4: the code violates the batch-isolation requirement.  On a
batch whose middle document is corrupt, `fetch_and_extract_pdfs` aborts
with the propagated parse error and extracts nothing, instead of skipping
only the corrupt document and returning the two healthy ones. -/
theorem corrupt_pdf_aborts_batch :
    fetch_and_extract_pdfs
        [⟨("a.pdf"), [0]⟩, ⟨("bad.pdf"), [1]⟩, ⟨("c.pdf"), [2]⟩] demoParse =
      Except.error ("PdfReadError: bad.pdf") ∧
    (Except.error ("PdfReadError: bad.pdf") :
        Except String (List Doc)) ≠
      Except.ok [⟨("a.pdf"), specJoinPages [some ("page")]⟩,
                 ⟨("c.pdf"), specJoinPages [some ("page")]⟩] := by
  constructor
  · rfl
  · intro h
    exact Except.noConfusion h

/-- Claim C5: for a valid PDF blob, extraction outputs the per-page texts
in page order joined with newline separators, a page without extractable
text contributing the empty string, and the document never fails. -/
theorem fetch_extracts_pages_in_order (b : Blob)
    (parsePdf : Bytes → Option (List (Option String)))
    (pages : List (Option String))
    (hname : isPdfName b.name = true)
    (hparse : parsePdf b.data = some pages) :
    fetch_and_extract_pdfs [b] parsePdf =
      Except.ok [⟨b.name, specJoinPages pages⟩] := by
  unfold fetch_and_extract_pdfs
  simp [fetchLoop, hname, hparse, extractPages_eq_specJoinPages]

/-- Witness for claim C5 on a concrete three-page document whose middle
page has no extractable text. -/
theorem fetch_extracts_pages_in_order_witness :
    isPdfName ("m.pdf") = true ∧
    demoParsePages ([7] : Bytes) = some [some ("a"), none, some ("b")] ∧
    fetch_and_extract_pdfs [⟨("m.pdf"), [7]⟩] demoParsePages =
      Except.ok [⟨("m.pdf"), specJoinPages [some ("a"), none, some ("b")]⟩] :=
  ⟨by decide, by decide,
   fetch_extracts_pages_in_order ⟨("m.pdf"), [7]⟩ demoParsePages
     [some ("a"), none, some ("b")] (by decide) (by decide)⟩

/-- Claim C6: for a non-empty hit list, `answer_with_gpt4o` issues exactly
one completion request, whose messages are the fixed system message
followed by a user message containing the 0-based-labeled, blank-line
separated context block and then the question. -/
theorem prompt_structure (q : String) (chunks : List (String × String))
    (complete : CompletionRequest → String) (h : chunks ≠ []) :
    (answer_with_gpt4o q chunks complete).2 =
      [⟨[⟨("system"), SYSTEM_PROMPT⟩,
         ⟨("user"), ("Context:\n") ++ specContextBlock 0 chunks ++
           ("\n\nQuestion: ") ++ q ++
           ("\n\nAnswer in a concise, step-by-step format.")⟩],
        (0.4 : Rat), 512⟩] := by
  unfold answer_with_gpt4o
  rw [if_neg h]
  simp [buildContext_eq_specContextBlock]

/-- Witness for claim C6 on two concrete hits. -/
theorem prompt_structure_witness :
    ([(("c1"), ("alpha")), (("c2"), ("beta"))] : List (String × String)) ≠ [] ∧
    (answer_with_gpt4o ("how") [(("c1"), ("alpha")), (("c2"), ("beta"))]
        (fun _ => ("ans"))).2 =
      [⟨[⟨("system"), SYSTEM_PROMPT⟩,
         ⟨("user"), ("Context:\n") ++
           specContextBlock 0 [(("c1"), ("alpha")), (("c2"), ("beta"))] ++
           ("\n\nQuestion: ") ++ ("how") ++
           ("\n\nAnswer in a concise, step-by-step format.")⟩],
        (0.4 : Rat), 512⟩] :=
  ⟨by decide,
   prompt_structure ("how") [(("c1"), ("alpha")), (("c2"), ("beta"))]
     (fun _ => ("ans")) (by decide)⟩

/-- Claim C7: the POSTed request bodies have exactly the two accepted
shapes — `app.py` sends `top`, and a single vector query with fields
`contentVector`, the query vector, `k`, kind `vector` and
`exhaustive = false`; `vector_searchrest.py` sends the alternate shape
with `search = "*"` and `select = "id,content"` — and on success the
response's `value` array is mapped in order to `(id, content)` pairs. -/
theorem search_request_shape (q : String) (embed : String → List Rat)
    (search : Json → SearchResponse) (k : Nat) :
    Json.lookup (vector_search q embed search k).1 ("top") =
      some (Json.num (k : Rat)) ∧
    Json.lookup (vector_search q embed search k).1 ("vectorQueries") =
      some (Json.arr [Json.obj
        [(("fields"), Json.str ("contentVector")),
         (("vector"), Json.arr ((embed q).map Json.num)),
         (("k"), Json.num (k : Rat)),
         (("kind"), Json.str ("vector")),
         (("exhaustive"), Json.bool false)]]) ∧
    Json.lookup (rest_vector_search q embed search k).1 ("search") =
      some (Json.str ("*")) ∧
    Json.lookup (rest_vector_search q embed search k).1 ("select") =
      some (Json.str ("id,content")) ∧
    Json.lookup (rest_vector_search q embed search k).1 ("vectorQueries") =
      some (Json.arr [Json.obj
        [(("vector"), Json.arr ((embed q).map Json.num)),
         (("fields"), Json.str ("contentVector")),
         (("k"), Json.num (k : Rat)),
         (("kind"), Json.str ("vector"))]]) ∧
    (∀ hits : List Json,
      (search (appBody (embed q) k)).status < 400 →
      Json.lookup (search (appBody (embed q) k)).body ("value") =
        some (Json.arr hits) →
      (∀ h ∈ hits, WellFormedHit h) →
      (vector_search q embed search k).2 =
        Except.ok (hits.map
          (fun h => (strField h ("id"), strField h ("content"))))) := by
  refine ⟨rfl, rfl, rfl, rfl, rfl, ?_⟩
  intro hits hst hval hwf
  show vectorResult (search (appBody (embed q) k)) = _
  unfold vectorResult
  rw [if_neg (by omega), hval]
  simpa using mapHits_wellFormed hits hwf

/-- Witness for claim C7 on a concrete one-hit response. -/
theorem search_request_shape_witness :
    (vector_search ("q") demoEmbed demoSearch 4).2 =
      Except.ok [(("x"), ("y"))] := by
  have h := (search_request_shape ("q") demoEmbed demoSearch 4).2.2.2.2.2
  have h2 := h
    [Json.obj [(("id"), Json.str ("x")), (("content"), Json.str ("y"))]]
    (by decide) rfl
    (by
      intro x hx
      simp only [List.mem_singleton] at hx
      subst hx
      exact ⟨⟨("x"), rfl⟩, ⟨("y"), rfl⟩⟩)
  exact h2

/-- Claim C8, counterexample: the default result count of `vector_search`
in `app.py` is 7, not 4 — calling it without an explicit `k` sends
`top = 7`. -/
theorem default_k_not_four :
    Json.lookup (vector_search ("q") demoEmbed demoSearch).1 ("top") =
      some (Json.num 7) ∧ (7 : Nat) ≠ 4 :=
  ⟨rfl, by decide⟩

/-- Claim C8, amended: the interactive slider bounds `k` to the range 1-8
with default 4 and every slider value lies in that range; the retrieval
functions' own defaults are 7 (`app.py`) and 5 (`vector_searchrest.py`),
each within 1-8 but not 4. -/
theorem k_bounds_and_defaults :
    kSlider.minVal = 1 ∧ kSlider.maxVal = 8 ∧ kSlider.defaultVal = 4 ∧
    (∀ choice : Nat,
      1 ≤ sliderValue kSlider choice ∧ sliderValue kSlider choice ≤ 8) ∧
    (∀ (q : String) (embed : String → List Rat)
        (search : Json → SearchResponse),
      Json.lookup (vector_search q embed search).1 ("top") =
        some (Json.num 7)) ∧
    (∀ (q : String) (embed : String → List Rat)
        (search : Json → SearchResponse),
      Json.lookup (rest_vector_search q embed search).1 ("vectorQueries") =
        some (Json.arr [Json.obj
          [(("vector"), Json.arr ((embed q).map Json.num)),
           (("fields"), Json.str ("contentVector")),
           (("k"), Json.num 5),
           (("kind"), Json.str ("vector"))]])) := by
  refine ⟨rfl, rfl, rfl, ?_, fun q e s => rfl, fun q e s => rfl⟩
  intro choice
  unfold sliderValue kSlider
  constructor
  · exact Nat.le_max_left 1 (min 8 choice)
  · exact Nat.max_le.mpr ⟨by norm_num, Nat.min_le_left 8 choice⟩

/-- Claim C9: pressing Ask with the empty question string makes no
embedding, search or completion call and leaves the history unchanged. -/
theorem empty_question_no_calls (k : Nat) (history : List (String × String))
    (embed : String → List Rat) (search : Json → SearchResponse)
    (complete : CompletionRequest → String) :
    askButton ("") k history embed search complete =
      (Except.ok history, [], [], []) := rfl

/-- Claim C10: on a 2xx response whose JSON lacks a `value` field, both
retrieval functions treat the hit list as empty rather than raising; and
whenever the `value` array is present with string fields, the result list
has exactly one `(id, content)` pair per array element, in response
order. -/
theorem missing_value_and_ordered_mapping (q : String)
    (embed : String → List Rat) (search : Json → SearchResponse) (k : Nat) :
    (200 ≤ (search (appBody (embed q) k)).status →
     (search (appBody (embed q) k)).status < 300 →
     Json.lookup (search (appBody (embed q) k)).body ("value") = none →
     (vector_search q embed search k).2 = Except.ok []) ∧
    (200 ≤ (search (restPayload (embed q) k)).status →
     (search (restPayload (embed q) k)).status < 300 →
     Json.lookup (search (restPayload (embed q) k)).body ("value") = none →
     (rest_vector_search q embed search k).2 = Except.ok ()) ∧
    (∀ hits : List Json,
      (search (appBody (embed q) k)).status < 400 →
      Json.lookup (search (appBody (embed q) k)).body ("value") =
        some (Json.arr hits) →
      (∀ h ∈ hits, WellFormedHit h) →
      ∃ ps : List (String × String),
        (vector_search q embed search k).2 = Except.ok ps ∧
        ps.length = hits.length ∧
        ∀ (j : Nat), j < hits.length →
          ps.getD j ((""), ("")) =
            (strField (hits.getD j Json.null) ("id"),
             strField (hits.getD j Json.null) ("content"))) := by
  refine ⟨?_, ?_, ?_⟩
  · intro h1 h2 hnone
    show vectorResult (search (appBody (embed q) k)) = _
    unfold vectorResult
    rw [if_neg (by omega), hnone]
    rfl
  · intro h1 h2 hnone
    show restResult (search (restPayload (embed q) k)) = _
    unfold restResult
    rw [if_neg (by omega), hnone]
    rfl
  · intro hits hst hval hwf
    refine ⟨hits.map (fun h => (strField h ("id"), strField h ("content"))),
      ?_, by simp, ?_⟩
    · show vectorResult (search (appBody (embed q) k)) = _
      unfold vectorResult
      rw [if_neg (by omega), hval]
      simpa using mapHits_wellFormed hits hwf
    · intro j hj
      have hj' : j < (hits.map
          (fun h => (strField h ("id"), strField h ("content")))).length := by
        simpa using hj
      rw [List.getD_eq_getElem _ _ hj', List.getD_eq_getElem _ _ hj]
      simp

/-- Witness for claim C10 on a concrete 204 response without a `value`
field. -/
theorem missing_value_and_ordered_mapping_witness :
    200 ≤ (demoSearchNoValue (appBody (demoEmbed ("q")) 4)).status ∧
    (demoSearchNoValue (appBody (demoEmbed ("q")) 4)).status < 300 ∧
    (vector_search ("q") demoEmbed demoSearchNoValue 4).2 = Except.ok [] :=
  ⟨by decide, by decide,
   (missing_value_and_ordered_mapping ("q") demoEmbed demoSearchNoValue 4).1
     (by decide) (by decide) rfl⟩

end REMA
